import Mathlib

/-!
Verification of the czkawka duplicates tools (duplicate_executor.py and
rollback_duplicates.py) against their natural-language specification.

The Python scripts are shallowly embedded as pure Lean functions:
* the filesystem is an association list from paths (component lists) to nodes;
* OS-level failures (copy errors, unlink/symlink errors, stat errors,
  permission queries, device identifiers) are supplied as explicit oracle
  inputs, since the scripts observe them only through boolean outcomes;
* each executor method of `DuplicateFileExecutor` and each rollback method of
  `DuplicateRollback` becomes a function over an explicit state record.
-/

namespace DupTools

/-- A filesystem path, as its list of components (the embedding of
`pathlib.Path`).  `Path.name` is the last component and `Path.parent` drops
the last component. -/
abbrev Pathv := List String

/-- A filesystem node: a regular file with content, a symbolic link created by
`Path.symlink_to`, or a hard link created by `Path.hardlink_to`. -/
inductive FsNode
  | file (content : String)
  | symlink (target : Pathv)
  | hardlink (source : Pathv)
deriving DecidableEq, Repr

/-- Embedding of `pathlib.Path.name`. -/
def pathName (p : Pathv) : String := p.getLastD ""

/-- Embedding of `pathlib.Path.parent`. -/
def parent (p : Pathv) : Pathv := p.dropLast

/-- Rendering of a path as the string stored in rollback entries
(`str(path)` in the scripts). -/
def pathStr (p : Pathv) : String := String.intercalate "/" p

/-- First-match association-list lookup: `fs` maps each existing path to its
node; a path not in the list does not exist (`Path.exists()` is false). -/
def fsGet : List (Pathv × FsNode) → Pathv → Option FsNode
  | [], _ => none
  | e :: rest, p => if e.1 = p then some e.2 else fsGet rest p

/-- Remove a path from the filesystem (`Path.unlink`). -/
def fsRemove (fs : List (Pathv × FsNode)) (p : Pathv) : List (Pathv × FsNode) :=
  fs.filter (fun e => !decide (e.1 = p))

/-- Bind a path to a node, replacing any previous binding. -/
def fsSet (fs : List (Pathv × FsNode)) (p : Pathv) (n : FsNode) : List (Pathv × FsNode) :=
  (p, n) :: fsRemove fs p

/-- `RollbackEntry` dataclass of duplicate_executor.py. -/
structure RollbackEntry where
  timestamp : String
  operation_type : String
  original_path : String
  target_path : String
  backup_path : String
  status : String := "active"
deriving DecidableEq, Repr

/-- `OperationStats` dataclass of duplicate_executor.py. -/
structure OperationStats where
  total_rows : Nat := 0
  processed_rows : Nat := 0
  softlinks_created : Nat := 0
  hardlinks_created : Nat := 0
  files_deleted : Nat := 0
  errors : Nat := 0
  skipped : Nat := 0
deriving DecidableEq, Repr

/-- The mutable state of a `DuplicateFileExecutor` session: the dry-run flag,
the live filesystem, the contents of the session backup directory
(backup name to copied bytes; a later copy under the same name overwrites the
earlier one, see `lookupBackup`), the in-memory rollback ledger, and the
counters. -/
structure ExecState where
  dry_run : Bool
  fs : List (Pathv × FsNode)
  backups : List (String × String)
  rollback_entries : List RollbackEntry
  stats : OperationStats
deriving DecidableEq, Repr

/-- `ActionType` enum of duplicate_executor.py. -/
inductive ActionType
  | SOFTLINK_ORIGINAL
  | SOFTLINK_DUPLICATE
  | HARDLINK_ORIGINAL
  | HARDLINK_DUPLICATE
  | DELETE_ORIGINAL
  | DELETE_DUPLICATE
  | DELETE_BOTH
deriving DecidableEq, Repr

/-- `ValidationResult` enum of duplicate_executor.py. -/
inductive ValidationResult
  | SUCCESS
  | ERROR
  | CROSS_DEVICE
deriving DecidableEq, Repr

/-- OS-level oracles observed during validation: `os.access(dir, W_OK)`,
`stat().st_dev` of a path, and whether the two `stat` calls of the hardlink
device check raise `OSError` (modelled by one flag, since either failure takes
the same `except OSError` branch). -/
structure FsEnv where
  writeOk : Pathv → Bool
  dev : Pathv → Nat
  statOk : Bool

/-- True for the two hardlink actions, which trigger the device check. -/
def isHard : ActionType → Bool
  | .HARDLINK_ORIGINAL => true
  | .HARDLINK_DUPLICATE => true
  | _ => false

/-- Embedding of `DuplicateFileExecutor.validate_file_paths` (lines 195-249).
The two existence branches for the `*_ORIGINAL` and `*_DUPLICATE` actions have
identical bodies in the source and are merged into the first test; then come
the two write-permission checks on the parents of existing paths, and, for
hardlink actions only, the device comparison of `orig_path.stat().st_dev`
against `dup_path.parent.stat().st_dev`. -/
def validate_file_paths (env : FsEnv) (fs : List (Pathv × FsNode)) (orig dup : Pathv)
    (action : ActionType) : ValidationResult :=
  let origExists := (fsGet fs orig).isSome
  let dupExists := (fsGet fs dup).isSome
  if action ≠ .DELETE_BOTH ∧ (origExists = false ∨ dupExists = false) then .ERROR
  else if action = .DELETE_BOTH ∧ origExists = false ∧ dupExists = false then .ERROR
  else if origExists = true ∧ env.writeOk (parent orig) = false then .ERROR
  else if dupExists = true ∧ env.writeOk (parent dup) = false then .ERROR
  else if isHard action then
    if env.statOk = false then .ERROR
    else if env.dev orig ≠ env.dev (parent dup) then .CROSS_DEVICE
    else .SUCCESS
  else .SUCCESS

/-- The backup copy name built by the executor's f-strings, e.g.
`f"deleted_{file_path.name}_{datetime.now().strftime('%H%M%S')}"`:
operation label, file base name and a second-granularity `HHMMSS` timestamp,
joined by underscores. -/
def backupName (label base hms : String) : String :=
  label ++ "_" ++ base ++ "_" ++ hms

/-- The session backup directory (`self.backup_dir`), as the prefix used in
recorded `backup_path` strings. -/
def backupDirStr : String := "duplicate_backups"

/-- Bytes that `shutil.copy2` stores for a node; for links this abstracts the
referent's bytes. No theorem below depends on the exact value. -/
def nodeContent : FsNode → String
  | .file c => c
  | .symlink t => pathStr t
  | .hardlink s => pathStr s

/-- Last-match lookup in the backup directory: copying a second file under an
already-used backup name overwrites the earlier copy, so the latest binding
wins. -/
def lookupBackup (bs : List (String × String)) (name : String) : Option String :=
  bs.foldl (fun acc p => if p.1 = name then some p.2 else acc) none

/-- Embedding of `DuplicateFileExecutor.create_backup` (lines 251-267):
dry-run returns success untouched; a missing source is a no-op success;
otherwise `shutil.copy2` writes the copy into the backup directory, or fails
(`copyOk = false` models the caught `OSError`/`shutil.Error`). -/
def create_backup (st : ExecState) (file_path : Pathv) (backup_name : String)
    (copyOk : Bool) : Bool × ExecState :=
  if st.dry_run then (true, st)
  else
    match fsGet st.fs file_path with
    | none => (true, st)
    | some node =>
      if copyOk then
        (true, { st with backups := st.backups ++ [(backup_name, nodeContent node)] })
      else (false, st)

/-- The best-effort restore in the executor's `except OSError` branches: copy
the just-made backup back onto the target if that backup exists. A failure of
the restore copy itself only changes logging and is not modelled. -/
def restoreFromBackup (st : ExecState) (target : Pathv) (bname : String) : ExecState :=
  match lookupBackup st.backups bname with
  | some c => { st with fs := fsSet st.fs target (.file c) }
  | none => st

/-- Embedding of `DuplicateFileExecutor.execute_soft_link` (lines 269-311).
`linkOk = false` models an `OSError` raised anywhere in the
unlink-then-`symlink_to` sequence; the handler then restores the target from
the backup. On success the target is replaced by a symlink, a ledger entry is
appended, and the softlink counter is incremented. -/
def execute_soft_link (st : ExecState) (source_file target_file : Pathv)
    (iso hms : String) (copyOk linkOk : Bool) : Bool × ExecState :=
  if st.dry_run then (true, st)
  else
    let bname := backupName "softlink" (pathName target_file) hms
    let b := create_backup st target_file bname copyOk
    if b.1 = false then (false, b.2)
    else if linkOk = false then (false, restoreFromBackup b.2 target_file bname)
    else
      (true, { b.2 with
        fs := fsSet b.2.fs target_file (.symlink source_file),
        rollback_entries := b.2.rollback_entries ++
          [{ timestamp := iso, operation_type := "softlink",
             original_path := pathStr source_file, target_path := pathStr target_file,
             backup_path := backupDirStr ++ "/" ++ bname }],
        stats := { b.2.stats with softlinks_created := b.2.stats.softlinks_created + 1 } })

/-- Embedding of `DuplicateFileExecutor.execute_hard_link` (lines 313-355),
identical in shape to `execute_soft_link` with the `hardlink` label and
`Path.hardlink_to`. -/
def execute_hard_link (st : ExecState) (source_file target_file : Pathv)
    (iso hms : String) (copyOk linkOk : Bool) : Bool × ExecState :=
  if st.dry_run then (true, st)
  else
    let bname := backupName "hardlink" (pathName target_file) hms
    let b := create_backup st target_file bname copyOk
    if b.1 = false then (false, b.2)
    else if linkOk = false then (false, restoreFromBackup b.2 target_file bname)
    else
      (true, { b.2 with
        fs := fsSet b.2.fs target_file (.hardlink source_file),
        rollback_entries := b.2.rollback_entries ++
          [{ timestamp := iso, operation_type := "hardlink",
             original_path := pathStr source_file, target_path := pathStr target_file,
             backup_path := backupDirStr ++ "/" ++ bname }],
        stats := { b.2.stats with hardlinks_created := b.2.stats.hardlinks_created + 1 } })

/-- Embedding of `DuplicateFileExecutor.execute_delete` (lines 357-392):
dry-run short-circuits; an absent file is treated as a successful no-op (with
only a warning); otherwise back up, then unlink (`delOk = false` models the
caught `OSError`, after which the source returns without any restore), then
append the ledger entry and bump the counter. -/
def execute_delete (st : ExecState) (file_path : Pathv) (iso hms : String)
    (copyOk delOk : Bool) : Bool × ExecState :=
  if st.dry_run then (true, st)
  else if (fsGet st.fs file_path).isNone then (true, st)
  else
    let bname := backupName "deleted" (pathName file_path) hms
    let b := create_backup st file_path bname copyOk
    if b.1 = false then (false, b.2)
    else if delOk = false then (false, b.2)
    else
      (true, { b.2 with
        fs := fsRemove b.2.fs file_path,
        rollback_entries := b.2.rollback_entries ++
          [{ timestamp := iso, operation_type := "delete",
             original_path := pathStr file_path, target_path := "",
             backup_path := backupDirStr ++ "/" ++ bname }],
        stats := { b.2.stats with files_deleted := b.2.stats.files_deleted + 1 } })

/-- Failure oracles for one request: backup-copy and primitive-action outcomes
of the (first) mutation, and of the second mutation of `DELETE_BOTH`. -/
structure Faults where
  copy1 : Bool
  prim1 : Bool
  copy2 : Bool
  prim2 : Bool
deriving DecidableEq, Repr

/-- Embedding of `DuplicateFileExecutor.process_action` (lines 394-456) from
the point where the action string has parsed to an `ActionType`: validation
dispatch (error and cross-device short-circuits with their counters), the
per-action executor calls with the directionality of the source, the
`DELETE_BOTH` decomposition into two independently tracked deletions whose
results are conjoined, and the final processed/errors accounting.
`iso1`/`hms1` are the timestamps drawn for the (first) mutation, `iso2`/`hms2`
those of the second `DELETE_BOTH` deletion. -/
def process_action (env : FsEnv) (st : ExecState) (orig dup : Pathv) (action : ActionType)
    (iso1 hms1 iso2 hms2 : String) (f : Faults) : Bool × ExecState :=
  match validate_file_paths env st.fs orig dup action with
  | .ERROR => (false, { st with stats := { st.stats with errors := st.stats.errors + 1 } })
  | .CROSS_DEVICE =>
      (false, { st with stats := { st.stats with skipped := st.stats.skipped + 1 } })
  | .SUCCESS =>
    let r : Bool × ExecState :=
      match action with
      | .SOFTLINK_ORIGINAL => execute_soft_link st dup orig iso1 hms1 f.copy1 f.prim1
      | .SOFTLINK_DUPLICATE => execute_soft_link st orig dup iso1 hms1 f.copy1 f.prim1
      | .HARDLINK_ORIGINAL => execute_hard_link st dup orig iso1 hms1 f.copy1 f.prim1
      | .HARDLINK_DUPLICATE => execute_hard_link st orig dup iso1 hms1 f.copy1 f.prim1
      | .DELETE_ORIGINAL => execute_delete st orig iso1 hms1 f.copy1 f.prim1
      | .DELETE_DUPLICATE => execute_delete st dup iso1 hms1 f.copy1 f.prim1
      | .DELETE_BOTH =>
        let d1 := execute_delete st orig iso1 hms1 f.copy1 f.prim1
        let d2 := execute_delete d1.2 dup iso2 hms2 f.copy2 f.prim2
        (d1.1 && d2.1, d2.2)
    if r.1 then
      (true, { r.2 with stats := { r.2.stats with processed_rows := r.2.stats.processed_rows + 1 } })
    else
      (false, { r.2 with stats := { r.2.stats with errors := r.2.stats.errors + 1 } })

/-- The guard of `DuplicateFileExecutor.save_rollback_data` (lines 532-535):
the function returns without writing exactly when
`not self.rollback_entries and not self.dry_run`; it persists the ledger file
otherwise. -/
def saveRollbackPersists (entries : List RollbackEntry) (dry_run : Bool) : Bool :=
  !(entries.isEmpty && !dry_run)

/-- The persistence condition in the spec's words, for comparison: "ledger is
only persisted if it has entries or the run is not dry-run". -/
def saveRollbackPersists_spec (entries : List RollbackEntry) (dry_run : Bool) : Bool :=
  !entries.isEmpty || !dry_run

/-! ## The rollback script (rollback_duplicates.py) -/

/-- One operation dictionary of the ledger's `operations` array, as the
string-keyed, string-valued mapping produced by `asdict(RollbackEntry)`. -/
abbrev ROp := List (String × String)

/-- Python `op.get(k, dflt)` on an operation dictionary. -/
def opGet (op : ROp) (k dflt : String) : String :=
  match List.lookup k op with
  | some v => v
  | none => dflt

/-- `RollbackStats` dataclass of rollback_duplicates.py. -/
structure RStats where
  total_operations : Nat := 0
  successful_rollbacks : Nat := 0
  failed_rollbacks : Nat := 0
  skipped_operations : Nat := 0
deriving DecidableEq, Repr

/-- Outcome of a completed call of `DuplicateRollback.rollback_delete_operation`
(lines 108-137): dry-run always reports success; otherwise the outcome of the
backup-existence check, clobber check and restore copy is supplied by the
`oracle` (every exception inside the `try` is caught and reported as `False`).
Caution: the accesses `operation['original_path']` and
`operation['backup_path']` at lines 110-111 sit outside the `try` and raise an
uncaught `KeyError` when a key is absent, killing the whole run; that abort
path is modelled by `rollback_delete_operation_run` below, and this
completed-call abstraction is exact precisely when the entry carries both
keys (`opHasHandlerKeys`). -/
def rollback_delete_operation (dry : Bool) (oracle : ROp → Bool) (op : ROp) : Bool :=
  if dry then true else oracle op

/-- Outcome of a completed call of `DuplicateRollback.rollback_link_operation`
(lines 139-167), with the same outcome abstraction and the same caveat as
`rollback_delete_operation`: `operation['target_path']` and
`operation['backup_path']` (lines 141-142) are read outside the `try`; the
crash path is modelled by `rollback_link_operation_run`. -/
def rollback_link_operation (dry : Bool) (oracle : ROp → Bool) (op : ROp) : Bool :=
  if dry then true else oracle op

/-- Completed-call embedding of `DuplicateRollback.rollback_operation` (lines
169-180): dispatch on `op.get('operation_type', '')`; an unrecognized type
increments `skipped_operations` (passed and returned explicitly) and reports
failure, reading no path keys, so that branch can never crash.  The
crash-aware version is `rollback_operation_run`. -/
def rollback_operation (dry : Bool) (oracle : ROp → Bool) (skipped : Nat) (op : ROp) :
    Bool × Nat :=
  let t := opGet op "operation_type" ""
  if t = "delete" then (rollback_delete_operation dry oracle op, skipped)
  else if t = "softlink" ∨ t = "hardlink" then (rollback_link_operation dry oracle op, skipped)
  else (false, skipped + 1)

/-- Keep-predicate of the `--operation-type` filter:
`op.get('operation_type') in operation_types` (no default, so an operation
without the field is never kept). -/
def typeFilterKeep (types : List String) (op : ROp) : Bool :=
  match List.lookup "operation_type" op with
  | some t => types.contains t
  | none => false

/-- Embedding of the three filters of `DuplicateRollback.execute_rollback`
(lines 194-205).  Each filter is applied only when its argument is truthy in
Python (`if operation_types:` / `if after_timestamp:` / `if before_timestamp:`),
so `none`, an empty type list and an empty bound string all leave the list
unchanged.  The timestamp comparisons are Python's strict lexicographic `<`
and `>` on `op.get('timestamp', '')`. -/
def filterOps (ops : List ROp) (types : Option (List String)) (aft bef : Option String) :
    List ROp :=
  let ops1 := match types with
    | some ts => if ts.isEmpty then ops else ops.filter (typeFilterKeep ts)
    | none => ops
  let ops2 := match aft with
    | some a => if a = "" then ops1
        else ops1.filter (fun op => decide (a < opGet op "timestamp" ""))
    | none => ops1
  match bef with
  | some b => if b = "" then ops2
      else ops2.filter (fun op => decide (opGet op "timestamp" "" < b))
  | none => ops2

/-- The per-entry loop of `DuplicateRollback.execute_rollback` (lines
213-222) for runs that complete (no entry triggers the uncaught `KeyError`;
see `rollbackLoopRun` for the crash-aware loop), run on the already-reversed
operation list: each iteration calls `rollback_operation` and increments
exactly one of `successful_rollbacks` / `failed_rollbacks`; the second
component records the entries attempted, in order. -/
def rollbackLoop (dry : Bool) (oracle : ROp → Bool) :
    List ROp → RStats → RStats × List ROp
  | [], s => (s, [])
  | op :: rest, s =>
    let r := rollback_operation dry oracle s.skipped_operations op
    let s2 :=
      if r.1 then
        { s with successful_rollbacks := s.successful_rollbacks + 1,
                 skipped_operations := r.2 }
      else
        { s with failed_rollbacks := s.failed_rollbacks + 1,
                 skipped_operations := r.2 }
    let res := rollbackLoop dry oracle rest s2
    (res.1, op :: res.2)

/-- Embedding of `DuplicateRollback.execute_rollback` (lines 182-227) after a
ledger's operation list has been obtained, for runs that complete (the
crash-aware version is `execute_rollback_ops_run`): filter, early-return 0
when nothing is left, set `total_operations`, process the filtered list in
reverse (LIFO), and exit 0 when no rollback failed, 2 otherwise.  Returns
(exit code, final stats, attempted entries in attempt order). -/
def execute_rollback_ops (dry : Bool) (oracle : ROp → Bool) (ops : List ROp)
    (types : Option (List String)) (aft bef : Option String) :
    Nat × RStats × List ROp :=
  let fops := filterOps ops types aft bef
  if fops.isEmpty then (0, ({} : RStats), ([] : List ROp))
  else
    let s0 : RStats := { total_operations := fops.length }
    let res := rollbackLoop dry oracle fops.reverse s0
    (if res.1.failed_rollbacks = 0 then 0 else 2, res.1, res.2)

/-- The dictionary keys the dispatched handler reads outside its `try`:
`original_path` and `backup_path` for `delete` entries (lines 110-111),
`target_path` and `backup_path` for `softlink`/`hardlink` entries (lines
141-142); an entry of unrecognized type reads no path keys. -/
def opHasHandlerKeys (op : ROp) : Bool :=
  let t := opGet op "operation_type" ""
  if t = "delete" then
    (List.lookup "original_path" op).isSome && (List.lookup "backup_path" op).isSome
  else if t = "softlink" ∨ t = "hardlink" then
    (List.lookup "target_path" op).isSome && (List.lookup "backup_path" op).isSome
  else true

/-- Crash-aware embedding of `DuplicateRollback.rollback_delete_operation`
(lines 108-137): the subscript accesses `operation['original_path']` and
`operation['backup_path']` (lines 110-111) precede both the dry-run check and
the `try`, so an entry lacking either key raises an uncaught `KeyError`,
modelled as `none`; otherwise the call completes with the dry-run/oracle
outcome of `rollback_delete_operation`. -/
def rollback_delete_operation_run (dry : Bool) (oracle : ROp → Bool) (op : ROp) :
    Option Bool :=
  match List.lookup "original_path" op, List.lookup "backup_path" op with
  | some _, some _ => some (rollback_delete_operation dry oracle op)
  | _, _ => none

/-- Crash-aware embedding of `DuplicateRollback.rollback_link_operation`
(lines 139-167): `operation['target_path']` and `operation['backup_path']`
(lines 141-142) are outside the `try` and raise an uncaught `KeyError` when
absent.  The further read `operation['operation_type']` at line 143 cannot
fail at this function's only call site: the dispatch reaches it exactly when
`op.get('operation_type')` returned `softlink` or `hardlink`, so that key is
present. -/
def rollback_link_operation_run (dry : Bool) (oracle : ROp → Bool) (op : ROp) :
    Option Bool :=
  match List.lookup "target_path" op, List.lookup "backup_path" op with
  | some _, some _ => some (rollback_link_operation dry oracle op)
  | _, _ => none

/-- Crash-aware embedding of `DuplicateRollback.rollback_operation` (lines
169-180): `none` propagates an uncaught `KeyError` out of the dispatched
handler; the unrecognized-type branch reads no path keys, so it always
completes, incrementing `skipped_operations` and reporting failure. -/
def rollback_operation_run (dry : Bool) (oracle : ROp → Bool) (skipped : Nat) (op : ROp) :
    Option Bool × Nat :=
  let t := opGet op "operation_type" ""
  if t = "delete" then (rollback_delete_operation_run dry oracle op, skipped)
  else if t = "softlink" ∨ t = "hardlink" then
    (rollback_link_operation_run dry oracle op, skipped)
  else (some false, skipped + 1)

/-- Crash-aware per-entry loop of `DuplicateRollback.execute_rollback` (lines
213-222): the loop body is not wrapped in any handler, so an uncaught
`KeyError` aborts the run at the offending entry — the statistics are lost
(first component `none`: the process dies with a traceback before the summary)
and no later entry is attempted.  The trace records the entries handed to
`rollback_operation`, the crashing one included. -/
def rollbackLoopRun (dry : Bool) (oracle : ROp → Bool) :
    List ROp → RStats → Option RStats × List ROp
  | [], s => (some s, [])
  | op :: rest, s =>
    let r := rollback_operation_run dry oracle s.skipped_operations op
    match r.1 with
    | none => (none, [op])
    | some ok =>
      let s2 :=
        if ok then
          { s with successful_rollbacks := s.successful_rollbacks + 1,
                   skipped_operations := r.2 }
        else
          { s with failed_rollbacks := s.failed_rollbacks + 1,
                   skipped_operations := r.2 }
      let res := rollbackLoopRun dry oracle rest s2
      (res.1, op :: res.2)

/-- Crash-aware `DuplicateRollback.execute_rollback` (lines 182-227) after the
operation list has been obtained.  When the loop aborts with the uncaught
`KeyError`, the interpreter exits with status 1 (uncaught-exception traceback)
and no statistics are produced; otherwise the exit code is 0 when no rollback
failed and 2 otherwise. -/
def execute_rollback_ops_run (dry : Bool) (oracle : ROp → Bool) (ops : List ROp)
    (types : Option (List String)) (aft bef : Option String) :
    Nat × Option RStats × List ROp :=
  let fops := filterOps ops types aft bef
  if fops.isEmpty then (0, some ({} : RStats), ([] : List ROp))
  else
    let s0 : RStats := { total_operations := fops.length }
    let res := rollbackLoopRun dry oracle fops.reverse s0
    match res.1 with
    | none => (1, none, res.2)
    | some s => (if s.failed_rollbacks = 0 then 0 else 2, some s, res.2)

/-- JSON values, for the ledger document read by `load_rollback_data`. -/
inductive JVal
  | jnull
  | jbool (b : Bool)
  | jnum (n : Int)
  | jstr (s : String)
  | jarr (elems : List JVal)
  | jobj (fields : List (String × JVal))

/-- Python `k in data` for a JSON object. -/
def jHasKey (fields : List (String × JVal)) (k : String) : Bool :=
  fields.any (fun p => p.1 == k)

/-- `data[k]` for a JSON object; `json.load` keeps the last occurrence of a
duplicated key, so the last binding wins. -/
def jLookup (fields : List (String × JVal)) (k : String) : Option JVal :=
  fields.foldl (fun acc p => if p.1 == k then some p.2 else acc) none

/-- Whether Python `len()` succeeds on a JSON-decoded value: strings, arrays
and objects are sized; `None`, booleans and numbers raise `TypeError`. -/
def jSized : JVal → Bool
  | .jstr _ => true
  | .jarr _ => true
  | .jobj _ => true
  | _ => false

/-- Embedding of `DuplicateRollback.load_rollback_data` (lines 77-106).
`none` as input stands for a missing file or invalid JSON
(`json.JSONDecodeError`), both of which return `None`.  For an object, the
two required top-level fields `timestamp` and `operations` are checked in
order (line 88-92, returning `None` at the first missing one); then line 94
evaluates `len(data['operations'])`, which raises `TypeError` — caught by the
`except Exception` at line 104, returning `None` — unless the operations
value is sized.  The inner `none` arm of the lookup is unreachable: the key
check just passed guarantees the subscript succeeds (see `jLookup_hasKey`).
A non-object document also yields `None` in the source: the membership test
or the subscript raises inside the `try`, and the handler returns `None`. -/
def load_rollback_data : Option JVal → Option (List (String × JVal))
  | none => none
  | some (.jobj fields) =>
    if jHasKey fields "timestamp" = false then none
    else if jHasKey fields "operations" = false then none
    else
      match jLookup fields "operations" with
      | some v => if jSized v then some fields else none
      | none => none
  | some _ => none

/-- Decode one element of the `operations` array into the string-valued
dictionary the rollback functions consume. -/
def decodeOp : JVal → Option ROp
  | .jobj fs =>
    fs.foldr
      (fun p acc =>
        match p.2, acc with
        | .jstr v, some r => some ((p.1, v) :: r)
        | _, _ => none)
      (some [])
  | _ => none

/-- Decode the `operations` field into the operation list; `none` when the
value is not an array of string-valued objects.  In that case the source
(which has already loaded the ledger, since every sized value passes the
loader) raises an uncaught `AttributeError`/`TypeError` while filtering or
iterating the entries — depending on entry order this can happen only after
some rollbacks have already been performed.  No theorem below relies on the
behavior of that aborted path; see `execute_rollback_file`. -/
def decodeOps : Option JVal → Option (List ROp)
  | some (.jarr xs) =>
    xs.foldr
      (fun x acc =>
        match decodeOp x, acc with
        | some op, some r => some (op :: r)
        | _, _ => none)
      (some [])
  | _ => none

/-- `DuplicateRollback.execute_rollback` from the raw ledger document, in the
crash-aware model: a failed load returns 1 cleanly with nothing attempted
(`if not data: return 1`); a loaded ledger whose operations value decodes to
an array of string-valued entries proceeds as `execute_rollback_ops_run`.
The remaining case — a loaded (hence sized) operations value that does not so
decode — makes the source die of an uncaught exception during filtering or
iteration, possibly after performing some rollbacks; it is recorded here as
an aborted run (exit 1, statistics lost) whose partial trace is not tracked,
and no theorem below depends on that arm. -/
def execute_rollback_file (dry : Bool) (oracle : ROp → Bool) (file : Option JVal)
    (types : Option (List String)) (aft bef : Option String) :
    Nat × Option RStats × List ROp :=
  match load_rollback_data file with
  | none => (1, some ({} : RStats), ([] : List ROp))
  | some fields =>
    match decodeOps (jLookup fields "operations") with
    | none => (1, none, ([] : List ROp))
    | some ops => execute_rollback_ops_run dry oracle ops types aft bef

/-! ## Helper lemmas about the rollback loop -/

/-- The operation types recognized by `rollback_operation`. -/
def isKnownType (t : String) : Bool :=
  t == "delete" || t == "softlink" || t == "hardlink"

theorem rollback_operation_skipped_le (dry : Bool) (oracle : ROp → Bool) (sk : Nat) (op : ROp) :
    sk ≤ (rollback_operation dry oracle sk op).2 := by
  rw [rollback_operation]
  split
  · exact Nat.le_refl _
  · split
    · exact Nat.le_refl _
    · exact Nat.le_succ _

theorem rollback_operation_unknown (dry : Bool) (oracle : ROp → Bool) (sk : Nat) (op : ROp)
    (h : isKnownType (opGet op "operation_type" "") = false) :
    rollback_operation dry oracle sk op = (false, sk + 1) := by
  simp only [isKnownType, Bool.or_eq_false_iff, beq_eq_false_iff_ne, ne_eq] at h
  simp [rollback_operation, h.1.1, h.1.2, h.2]

theorem rollbackLoop_trace (dry : Bool) (oracle : ROp → Bool) (l : List ROp) :
    ∀ s : RStats, (rollbackLoop dry oracle l s).2 = l := by
  induction l with
  | nil => intro s; rfl
  | cons op rest ih => intro s; simp only [rollbackLoop]; rw [ih]

theorem rollbackLoop_total (dry : Bool) (oracle : ROp → Bool) (l : List ROp) :
    ∀ s : RStats, (rollbackLoop dry oracle l s).1.total_operations = s.total_operations := by
  induction l with
  | nil => intro s; rfl
  | cons op rest ih =>
    intro s
    simp only [rollbackLoop]
    split <;> rw [ih]

theorem rollbackLoop_sum (dry : Bool) (oracle : ROp → Bool) (l : List ROp) :
    ∀ s : RStats,
      (rollbackLoop dry oracle l s).1.successful_rollbacks
          + (rollbackLoop dry oracle l s).1.failed_rollbacks
        = s.successful_rollbacks + s.failed_rollbacks + l.length := by
  induction l with
  | nil => intro s; simp [rollbackLoop]
  | cons op rest ih =>
    intro s
    simp only [rollbackLoop, List.length_cons]
    split
    · rw [ih]; dsimp only; omega
    · rw [ih]; dsimp only; omega

theorem rollbackLoop_failed_le (dry : Bool) (oracle : ROp → Bool) (l : List ROp) :
    ∀ (s : RStats) (n : Nat), n ≤ s.failed_rollbacks →
      n ≤ (rollbackLoop dry oracle l s).1.failed_rollbacks := by
  induction l with
  | nil => intro s n h; exact h
  | cons op rest ih =>
    intro s n hn
    simp only [rollbackLoop]
    split
    · exact ih _ n hn
    · refine ih _ n ?_
      dsimp only
      omega

theorem rollbackLoop_skipped_le (dry : Bool) (oracle : ROp → Bool) (l : List ROp) :
    ∀ (s : RStats) (n : Nat), n ≤ s.skipped_operations →
      n ≤ (rollbackLoop dry oracle l s).1.skipped_operations := by
  induction l with
  | nil => intro s n h; exact h
  | cons op rest ih =>
    intro s n hn
    have hsk := rollback_operation_skipped_le dry oracle s.skipped_operations op
    simp only [rollbackLoop]
    split
    · refine ih _ n ?_
      dsimp only
      omega
    · refine ih _ n ?_
      dsimp only
      omega

theorem rollbackLoop_unknown_failed (dry : Bool) (oracle : ROp → Bool) (op : ROp)
    (hunk : isKnownType (opGet op "operation_type" "") = false) (l : List ROp) :
    ∀ (s : RStats) (n : Nat), op ∈ l → n ≤ s.failed_rollbacks + 1 →
      n ≤ (rollbackLoop dry oracle l s).1.failed_rollbacks := by
  induction l with
  | nil => intro s n h; cases h
  | cons a rest ih =>
    intro s n hmem hn
    simp only [rollbackLoop]
    rcases List.mem_cons.mp hmem with heq | hrest
    · subst heq
      refine rollbackLoop_failed_le dry oracle rest _ n ?_
      rw [rollback_operation_unknown dry oracle _ _ hunk]
      simpa using hn
    · refine ih _ n hrest ?_
      split
      · dsimp only; omega
      · dsimp only; omega

theorem rollbackLoop_unknown_skipped (dry : Bool) (oracle : ROp → Bool) (op : ROp)
    (hunk : isKnownType (opGet op "operation_type" "") = false) (l : List ROp) :
    ∀ (s : RStats) (n : Nat), op ∈ l → n ≤ s.skipped_operations + 1 →
      n ≤ (rollbackLoop dry oracle l s).1.skipped_operations := by
  induction l with
  | nil => intro s n h; cases h
  | cons a rest ih =>
    intro s n hmem hn
    simp only [rollbackLoop]
    rcases List.mem_cons.mp hmem with heq | hrest
    · subst heq
      refine rollbackLoop_skipped_le dry oracle rest _ n ?_
      rw [rollback_operation_unknown dry oracle _ _ hunk]
      simpa using hn
    · have hsk := rollback_operation_skipped_le dry oracle s.skipped_operations a
      refine ih _ n hrest ?_
      split
      · dsimp only; omega
      · dsimp only; omega

theorem execute_rollback_ops_trace (dry : Bool) (oracle : ROp → Bool) (ops : List ROp)
    (types : Option (List String)) (aft bef : Option String) :
    (execute_rollback_ops dry oracle ops types aft bef).2.2
      = (filterOps ops types aft bef).reverse := by
  simp only [execute_rollback_ops]
  split
  · next hemp => rw [List.isEmpty_iff.mp hemp]; rfl
  · rw [rollbackLoop_trace]

theorem execute_rollback_ops_exit (dry : Bool) (oracle : ROp → Bool) (ops : List ROp)
    (types : Option (List String)) (aft bef : Option String) :
    (execute_rollback_ops dry oracle ops types aft bef).1 = 0
    ∨ (execute_rollback_ops dry oracle ops types aft bef).1 = 2 := by
  simp only [execute_rollback_ops]
  split
  · exact Or.inl rfl
  · split
    · exact Or.inl rfl
    · exact Or.inr rfl

theorem rollback_operation_run_isSome_eq (dry : Bool) (oracle : ROp → Bool) (sk : Nat)
    (op : ROp) :
    (rollback_operation_run dry oracle sk op).1.isSome = opHasHandlerKeys op := by
  by_cases h1 : opGet op "operation_type" "" = "delete"
  · simp only [rollback_operation_run, opHasHandlerKeys, h1, if_pos, if_true]
    rw [rollback_delete_operation_run]
    rcases ho : List.lookup "original_path" op with _ | v1 <;>
      rcases hb : List.lookup "backup_path" op with _ | v2 <;> simp [ho, hb]
  · by_cases h2 : opGet op "operation_type" "" = "softlink"
        ∨ opGet op "operation_type" "" = "hardlink"
    · simp only [rollback_operation_run, opHasHandlerKeys, h1, h2, if_neg, if_pos,
        if_false, if_true]
      rw [rollback_link_operation_run]
      rcases ht : List.lookup "target_path" op with _ | v1 <;>
        rcases hb : List.lookup "backup_path" op with _ | v2 <;> simp [ht, hb]
    · simp [rollback_operation_run, opHasHandlerKeys, h1, h2]

theorem rollbackLoopRun_trace (dry : Bool) (oracle : ROp → Bool) (l : List ROp)
    (hk : ∀ op ∈ l, opHasHandlerKeys op = true) :
    ∀ s : RStats, (rollbackLoopRun dry oracle l s).2 = l := by
  induction l with
  | nil => intro s; rfl
  | cons op rest ih =>
    intro s
    have hop : opHasHandlerKeys op = true := hk op (List.mem_cons_self op rest)
    have hrest : ∀ o ∈ rest, opHasHandlerKeys o = true :=
      fun o hmem => hk o (List.mem_cons_of_mem op hmem)
    simp only [rollbackLoopRun]
    rcases hr : (rollback_operation_run dry oracle s.skipped_operations op).1 with _ | ok
    · have := rollback_operation_run_isSome_eq dry oracle s.skipped_operations op
      rw [hr, hop] at this
      cases this
    · simp only [hr]
      rw [ih hrest]

theorem rollbackLoopRun_isSome (dry : Bool) (oracle : ROp → Bool) (l : List ROp)
    (hk : ∀ op ∈ l, opHasHandlerKeys op = true) :
    ∀ s : RStats, ((rollbackLoopRun dry oracle l s).1).isSome = true := by
  induction l with
  | nil => intro s; rfl
  | cons op rest ih =>
    intro s
    have hop : opHasHandlerKeys op = true := hk op (List.mem_cons_self op rest)
    have hrest : ∀ o ∈ rest, opHasHandlerKeys o = true :=
      fun o hmem => hk o (List.mem_cons_of_mem op hmem)
    simp only [rollbackLoopRun]
    rcases hr : (rollback_operation_run dry oracle s.skipped_operations op).1 with _ | ok
    · have := rollback_operation_run_isSome_eq dry oracle s.skipped_operations op
      rw [hr, hop] at this
      cases this
    · simp only [hr]
      exact ih hrest _

theorem execute_rollback_ops_run_trace (dry : Bool) (oracle : ROp → Bool) (ops : List ROp)
    (types : Option (List String)) (aft bef : Option String)
    (hk : ∀ op ∈ filterOps ops types aft bef, opHasHandlerKeys op = true) :
    (execute_rollback_ops_run dry oracle ops types aft bef).2.2
      = (filterOps ops types aft bef).reverse := by
  have hkr : ∀ op ∈ (filterOps ops types aft bef).reverse, opHasHandlerKeys op = true :=
    fun op hmem => hk op (List.mem_reverse.mp hmem)
  simp only [execute_rollback_ops_run]
  split
  · next hemp => rw [List.isEmpty_iff.mp hemp]; rfl
  · split <;> rw [rollbackLoopRun_trace dry oracle _ hkr]

theorem execute_rollback_ops_run_exit (dry : Bool) (oracle : ROp → Bool) (ops : List ROp)
    (types : Option (List String)) (aft bef : Option String)
    (hk : ∀ op ∈ filterOps ops types aft bef, opHasHandlerKeys op = true) :
    (execute_rollback_ops_run dry oracle ops types aft bef).1 = 0
    ∨ (execute_rollback_ops_run dry oracle ops types aft bef).1 = 2 := by
  have hkr : ∀ op ∈ (filterOps ops types aft bef).reverse, opHasHandlerKeys op = true :=
    fun op hmem => hk op (List.mem_reverse.mp hmem)
  simp only [execute_rollback_ops_run]
  split
  · exact Or.inl rfl
  · split
    · next hnone =>
      have := rollbackLoopRun_isSome dry oracle _ hkr
        { total_operations := (filterOps ops types aft bef).length }
      rw [hnone] at this
      cases this
    · split
      · exact Or.inl rfl
      · exact Or.inr rfl

theorem jLookup_eq_of_no_key (fields : List (String × JVal)) (k : String)
    (hk : ∀ p ∈ fields, (p.1 == k) = false) :
    ∀ acc : Option JVal,
      fields.foldl (fun acc p => if p.1 == k then some p.2 else acc) acc = acc := by
  induction fields with
  | nil => intro acc; rfl
  | cons e rest ih =>
    intro acc
    rw [List.foldl_cons, if_neg]
    · exact ih (fun p hp => hk p (List.mem_cons_of_mem e hp)) acc
    · rw [hk e (List.mem_cons_self e rest)]
      exact Bool.false_ne_true

theorem jLookup_hasKey (fields : List (String × JVal)) (k : String) (v : JVal)
    (h : jLookup fields k = some v) : jHasKey fields k = true := by
  by_contra hfalse
  rw [Bool.not_eq_true, jHasKey] at hfalse
  have hall : ∀ p ∈ fields, (p.1 == k) = false := by
    intro p hp
    by_contra hb
    rw [Bool.not_eq_false] at hb
    have htrue : fields.any (fun q => q.1 == k) = true := List.any_eq_true.mpr ⟨p, hp, hb⟩
    rw [htrue] at hfalse
    cases hfalse
  rw [jLookup, jLookup_eq_of_no_key fields k hall none] at h
  cases h

theorem string_lt_irrefl (s : String) : ¬ s < s := by
  intro h
  rw [String.lt_iff_toList_lt] at h
  exact List.Lex.isAsymm.aux (fun c d : Char => c < d) _ _ h h

theorem string_not_lt_empty (s : String) : ¬ s < "" := by
  intro h
  rw [String.lt_iff_toList_lt] at h
  exact List.Lex.not_nil_right (fun c d : Char => c < d) s.toList h

theorem string_empty_lt (b : String) (hb : b ≠ "") : "" < b := by
  rw [String.lt_iff_toList_lt]
  cases b with
  | mk data =>
    cases data with
    | nil => exact absurd rfl hb
    | cons c cs => exact List.nil_lt_cons c cs

/-! ## Claim theorems, rollback side -/

/-- C4 counterexample: a well-formed delete entry (first in the ledger)
followed by a delete entry lacking its path keys.  Reverse (LIFO) processing
attempts the keyless entry first; its `operation['original_path']` access
raises an uncaught `KeyError` that kills the run (exit status 1), so the
well-formed entry — filtered in — is never attempted, refuting "attempting
each entry exactly once, and a failure on one entry does not prevent the
remaining entries from being attempted". -/
theorem rollback_crash_blocks_rest_cex :
    [("operation_type", "delete"), ("original_path", "/a"), ("backup_path", "/b")]
        ∈ filterOps
          [[("operation_type", "delete"), ("original_path", "/a"), ("backup_path", "/b")],
           [("operation_type", "delete")]] none none none
    ∧ (execute_rollback_ops_run false (fun _ => true)
        [[("operation_type", "delete"), ("original_path", "/a"), ("backup_path", "/b")],
         [("operation_type", "delete")]] none none none).2.2
      = [[("operation_type", "delete")]]
    ∧ [("operation_type", "delete"), ("original_path", "/a"), ("backup_path", "/b")]
        ∉ (execute_rollback_ops_run false (fun _ => true)
            [[("operation_type", "delete"), ("original_path", "/a"), ("backup_path", "/b")],
             [("operation_type", "delete")]] none none none).2.2
    ∧ (execute_rollback_ops_run false (fun _ => true)
        [[("operation_type", "delete"), ("original_path", "/a"), ("backup_path", "/b")],
         [("operation_type", "delete")]] none none none).1 = 1 := by
  refine ⟨?_, ?_, ?_, ?_⟩ <;> decide

/-- C4 amended: for every loaded ledger and every choice of filters such that
each filtered-in entry carries the dictionary keys its handler reads outside
the `try` (`original_path`/`backup_path` for delete entries,
`target_path`/`backup_path` for link entries; unrecognized types need none),
the Reversal Engine attempts the filtered entries in strict reverse of their
order in the operations list, attempting each exactly once (the attempt trace
is the reversed filtered list, with matching multiplicities), independently of
the per-entry outcomes, so a handled failure on one entry never prevents the
remaining entries from being attempted.  Without the key proviso an entry
aborts the run mid-loop with an uncaught `KeyError` and the later entries in
attempt order are skipped (see the counterexample). -/
theorem rollback_reverse_order_with_keys (dry : Bool) (o1 o2 : ROp → Bool) (ops : List ROp)
    (types : Option (List String)) (aft bef : Option String)
    (hk : ∀ op ∈ filterOps ops types aft bef, opHasHandlerKeys op = true) :
    (execute_rollback_ops_run dry o1 ops types aft bef).2.2
        = (filterOps ops types aft bef).reverse
    ∧ (∀ op : ROp, ((execute_rollback_ops_run dry o1 ops types aft bef).2.2).count op
        = (filterOps ops types aft bef).count op)
    ∧ (execute_rollback_ops_run dry o1 ops types aft bef).2.2
        = (execute_rollback_ops_run dry o2 ops types aft bef).2.2 := by
  refine ⟨execute_rollback_ops_run_trace dry o1 ops types aft bef hk, ?_, ?_⟩
  · intro op
    rw [execute_rollback_ops_run_trace dry o1 ops types aft bef hk, List.count_reverse]
  · rw [execute_rollback_ops_run_trace dry o1 ops types aft bef hk,
      execute_rollback_ops_run_trace dry o2 ops types aft bef hk]

theorem rollback_reverse_order_with_keys_inst :
    (execute_rollback_ops_run false (fun _ => true)
        [[("operation_type", "delete"), ("original_path", "/a"), ("backup_path", "/b")]]
        none none none).2.2
      = (filterOps
          [[("operation_type", "delete"), ("original_path", "/a"), ("backup_path", "/b")]]
          none none none).reverse :=
  (rollback_reverse_order_with_keys false (fun _ => true) (fun _ => false)
      [[("operation_type", "delete"), ("original_path", "/a"), ("backup_path", "/b")]]
      none none none (by decide)).1

/-- C10 (confirmed): after every completed rollback run,
`successful_rollbacks + failed_rollbacks = total_operations`, which is the
number of entries after filtering; and a filtered-in entry with an
unrecognized `operation_type` is counted both in `skipped_operations` and in
`failed_rollbacks`, so its presence alone makes the run exit with code 2. -/
theorem rollback_stats_sum_unknown (dry : Bool) (oracle : ROp → Bool) (ops : List ROp)
    (types : Option (List String)) (aft bef : Option String) :
    ((execute_rollback_ops dry oracle ops types aft bef).2.1.successful_rollbacks
        + (execute_rollback_ops dry oracle ops types aft bef).2.1.failed_rollbacks
      = (execute_rollback_ops dry oracle ops types aft bef).2.1.total_operations)
    ∧ ((execute_rollback_ops dry oracle ops types aft bef).2.1.total_operations
      = (filterOps ops types aft bef).length)
    ∧ (∀ op : ROp, op ∈ filterOps ops types aft bef →
        isKnownType (opGet op "operation_type" "") = false →
        1 ≤ (execute_rollback_ops dry oracle ops types aft bef).2.1.skipped_operations
        ∧ 1 ≤ (execute_rollback_ops dry oracle ops types aft bef).2.1.failed_rollbacks
        ∧ (execute_rollback_ops dry oracle ops types aft bef).1 = 2) := by
  simp only [execute_rollback_ops]
  split
  · next hemp =>
    have h0 : filterOps ops types aft bef = [] := List.isEmpty_iff.mp hemp
    refine ⟨rfl, by rw [h0]; rfl, ?_⟩
    intro op hop
    rw [h0] at hop
    cases hop
  · refine ⟨?_, ?_, ?_⟩
    · rw [rollbackLoop_sum, rollbackLoop_total]
      dsimp only
      simp [List.length_reverse]
    · rw [rollbackLoop_total]
    · intro op hop hunk
      have hmemr : op ∈ (filterOps ops types aft bef).reverse := List.mem_reverse.mpr hop
      have hfail : 1 ≤ (rollbackLoop dry oracle (filterOps ops types aft bef).reverse
          { total_operations := (filterOps ops types aft bef).length }).1.failed_rollbacks :=
        rollbackLoop_unknown_failed dry oracle op hunk _ _ 1 hmemr (Nat.le_refl 1)
      have hskip : 1 ≤ (rollbackLoop dry oracle (filterOps ops types aft bef).reverse
          { total_operations := (filterOps ops types aft bef).length }).1.skipped_operations :=
        rollbackLoop_unknown_skipped dry oracle op hunk _ _ 1 hmemr (Nat.le_refl 1)
      refine ⟨hskip, hfail, ?_⟩
      rw [if_neg]
      omega

theorem rollback_stats_sum_unknown_inst :
    1 ≤ (execute_rollback_ops false (fun _ => true)
          [[("operation_type", "chmod")]] none none none).2.1.skipped_operations
    ∧ 1 ≤ (execute_rollback_ops false (fun _ => true)
          [[("operation_type", "chmod")]] none none none).2.1.failed_rollbacks
    ∧ (execute_rollback_ops false (fun _ => true)
          [[("operation_type", "chmod")]] none none none).1 = 2 :=
  (rollback_stats_sum_unknown false (fun _ => true)
      [[("operation_type", "chmod")]] none none none).2.2
    [("operation_type", "chmod")] (by decide) (by decide)

/-- C8 counterexample: a JSON object carrying both required top-level fields
whose `operations` value is `null` fails to load — `len(data['operations'])`
raises `TypeError`, caught at line 104 and turned into `None` — refuting
"for every JSON object containing both, loading succeeds"; the run then
returns 1 with nothing attempted. -/
theorem load_null_operations_cex :
    load_rollback_data
        (some (.jobj [("timestamp", .jstr "t"), ("operations", .jnull)])) = none
    ∧ execute_rollback_file false (fun _ => true)
        (some (.jobj [("timestamp", .jstr "t"), ("operations", .jnull)])) none none none
      = (1, some ({} : RStats), ([] : List ROp)) :=
  ⟨rfl, rfl⟩

/-- C8 amended: the rollback loader requires the top-level fields `timestamp`
and `operations` and additionally that the operations value be sized (`len`
succeeds: an array, string or object) — `backup_directory` and `dry_run` are
never required: every JSON object meeting these loads successfully.  Invalid
JSON or an object lacking either required field fails the load, after which
nothing is reversed (exit 1, clean).  When moreover the operations value
decodes to string-valued entries whose filtered members all carry their
handlers' path keys, the run proceeds past loading: the exit code is never
the load-failure code 1 and the filtered entries are attempted in reverse. -/
theorem load_required_fields_and_sized (fields : List (String × JVal)) (opsVal : JVal)
    (ops : List ROp) (dry : Bool) (oracle : ROp → Bool) (types : Option (List String))
    (aft bef : Option String)
    (hts : jHasKey fields "timestamp" = true)
    (hops : jLookup fields "operations" = some opsVal)
    (hsz : jSized opsVal = true) :
    load_rollback_data (some (.jobj fields)) = some fields
    ∧ (decodeOps (some opsVal) = some ops →
        (∀ op ∈ filterOps ops types aft bef, opHasHandlerKeys op = true) →
        (execute_rollback_file dry oracle (some (.jobj fields)) types aft bef).1 ≠ 1
        ∧ (execute_rollback_file dry oracle (some (.jobj fields)) types aft bef).2.2
            = (filterOps ops types aft bef).reverse)
    ∧ (∀ fields2 : List (String × JVal),
        jHasKey fields2 "timestamp" = false ∨ jHasKey fields2 "operations" = false →
        load_rollback_data (some (.jobj fields2)) = none
        ∧ execute_rollback_file dry oracle (some (.jobj fields2)) types aft bef
            = (1, some ({} : RStats), ([] : List ROp)))
    ∧ load_rollback_data none = none
    ∧ execute_rollback_file dry oracle none types aft bef
        = (1, some ({} : RStats), ([] : List ROp)) := by
  have hkops : jHasKey fields "operations" = true :=
    jLookup_hasKey fields "operations" opsVal hops
  have hload : load_rollback_data (some (.jobj fields)) = some fields := by
    simp [load_rollback_data, hts, hkops, hops, hsz]
  refine ⟨hload, ?_, ?_, rfl, rfl⟩
  · intro hdec hk
    have hrun : execute_rollback_file dry oracle (some (.jobj fields)) types aft bef
        = execute_rollback_ops_run dry oracle ops types aft bef := by
      rw [execute_rollback_file, hload]
      simp only [hops, hdec]
    constructor
    · rw [hrun]
      rcases execute_rollback_ops_run_exit dry oracle ops types aft bef hk with h | h <;>
        omega
    · rw [hrun]
      exact execute_rollback_ops_run_trace dry oracle ops types aft bef hk
  · intro fields2 h2
    have hl2 : load_rollback_data (some (.jobj fields2)) = none := by
      rcases h2 with h | h <;> simp [load_rollback_data, h]
    exact ⟨hl2, by rw [execute_rollback_file, hl2]⟩

theorem load_required_fields_and_sized_inst :
    load_rollback_data (some (.jobj
        [("timestamp", .jstr "2025-08-10T10:00:00"), ("operations", .jarr [])]))
      = some [("timestamp", .jstr "2025-08-10T10:00:00"), ("operations", .jarr [])] :=
  (load_required_fields_and_sized
      [("timestamp", .jstr "2025-08-10T10:00:00"), ("operations", .jarr [])]
      (.jarr []) [] false (fun _ => true) none none none rfl rfl rfl).1

/-- C9 (confirmed): the `--after` and `--before` timestamp filters are strict
string comparisons: an entry whose timestamp equals the bound is excluded by
either filter; an entry with no timestamp field defaults to the empty string,
so it is always excluded by an (applied, nonempty) `--after` filter and always
included by a nonempty `--before` filter. -/
theorem timestamp_filters_strict (ops : List ROp) (op : ROp) (a b : String)
    (ha : a ≠ "") (hb : b ≠ "") :
    (opGet op "timestamp" "" = a → op ∉ filterOps ops none (some a) none)
    ∧ (opGet op "timestamp" "" = b → op ∉ filterOps ops none none (some b))
    ∧ (List.lookup "timestamp" op = none → op ∉ filterOps ops none (some a) none)
    ∧ (List.lookup "timestamp" op = none → op ∈ ops →
        op ∈ filterOps ops none none (some b)) := by
  have hfa : filterOps ops none (some a) none
      = ops.filter (fun o => decide (a < opGet o "timestamp" "")) := by
    simp [filterOps, ha]
  have hfb : filterOps ops none none (some b)
      = ops.filter (fun o => decide (opGet o "timestamp" "" < b)) := by
    simp [filterOps, hb]
  refine ⟨?_, ?_, ?_, ?_⟩
  · intro heq hmem
    rw [hfa] at hmem
    have := (List.mem_filter.mp hmem).2
    rw [heq] at this
    exact string_lt_irrefl a (of_decide_eq_true this)
  · intro heq hmem
    rw [hfb] at hmem
    have := (List.mem_filter.mp hmem).2
    rw [heq] at this
    exact string_lt_irrefl b (of_decide_eq_true this)
  · intro hnone hmem
    rw [hfa] at hmem
    have := (List.mem_filter.mp hmem).2
    rw [show opGet op "timestamp" "" = "" by rw [opGet, hnone]] at this
    exact string_not_lt_empty a (of_decide_eq_true this)
  · intro hnone hmem
    rw [hfb]
    refine List.mem_filter.mpr ⟨hmem, ?_⟩
    rw [show opGet op "timestamp" "" = "" by rw [opGet, hnone]]
    exact decide_eq_true (string_empty_lt b hb)

theorem timestamp_filters_strict_inst :
    [("timestamp", "2025-08-10T10:00:00")]
      ∉ filterOps [[("timestamp", "2025-08-10T10:00:00")]]
          none (some "2025-08-10T10:00:00") none :=
  (timestamp_filters_strict [[("timestamp", "2025-08-10T10:00:00")]]
      [("timestamp", "2025-08-10T10:00:00")]
      "2025-08-10T10:00:00" "x" (by decide) (by decide)).1 rfl

/-! ## Helper lemmas about the executor -/

theorem create_backup_state (st : ExecState) (p : Pathv) (bn : String) (c : Bool) :
    (create_backup st p bn c).2.dry_run = st.dry_run
    ∧ (create_backup st p bn c).2.fs = st.fs
    ∧ (create_backup st p bn c).2.rollback_entries = st.rollback_entries := by
  rw [create_backup]
  split
  · exact ⟨rfl, rfl, rfl⟩
  · split
    · exact ⟨rfl, rfl, rfl⟩
    · split
      · exact ⟨rfl, rfl, rfl⟩
      · exact ⟨rfl, rfl, rfl⟩

theorem create_backup_entries (st : ExecState) (p : Pathv) (bn : String) (c : Bool) :
    (create_backup st p bn c).2.rollback_entries = st.rollback_entries :=
  (create_backup_state st p bn c).2.2

theorem restoreFromBackup_entries (st : ExecState) (t : Pathv) (bn : String) :
    (restoreFromBackup st t bn).rollback_entries = st.rollback_entries := by
  rw [restoreFromBackup]
  split
  · rfl
  · rfl

theorem fsGet_fsRemove_self (fs : List (Pathv × FsNode)) (p : Pathv) :
    fsGet (fsRemove fs p) p = none := by
  induction fs with
  | nil => rfl
  | cons e rest ih =>
    by_cases he : e.1 = p
    · simpa [fsRemove, List.filter_cons, he] using ih
    · simpa [fsRemove, List.filter_cons, fsGet, he] using ih

theorem fsGet_fsRemove_of_none (fs : List (Pathv × FsNode)) (p q : Pathv)
    (h : fsGet fs q = none) : fsGet (fsRemove fs p) q = none := by
  induction fs with
  | nil => rfl
  | cons e rest ih =>
    rw [fsGet] at h
    by_cases heq : e.1 = q
    · rw [if_pos heq] at h; cases h
    · rw [if_neg heq] at h
      by_cases hep : e.1 = p
      · simpa [fsRemove, List.filter_cons, hep] using ih h
      · simpa [fsRemove, List.filter_cons, fsGet, hep, heq] using ih h

/-! ## Concrete states and environments used by witnesses and
counterexamples -/

/-- A dry-run session with nothing done yet. -/
def stDry : ExecState :=
  { dry_run := true, fs := [], backups := [], rollback_entries := [], stats := {} }

/-- An environment where every directory is writable, all devices agree and
stat succeeds. -/
def envAll : FsEnv :=
  { writeOk := fun _ => true, dev := fun _ => 0, statOk := true }

/-- A concrete non-dry-run session over a filesystem holding two regular
files. -/
def stTwo : ExecState :=
  { dry_run := false,
    fs := [(["o", "f.txt"], .file "x"), (["d", "f.txt"], .file "x")],
    backups := [], rollback_entries := [], stats := {} }

/-- Environment with mismatched device identifiers between the original file
and the duplicate's parent directory, everything writable. -/
def envDev : FsEnv :=
  { writeOk := fun _ => true,
    dev := fun p => if p = ["o", "f.txt"] then 0 else 1,
    statOk := true }

/-- Same mismatched devices, but the duplicate's parent directory is not
writable. -/
def envNoPerm : FsEnv :=
  { writeOk := fun p => decide (p ≠ ["d"]),
    dev := fun p => if p = ["o", "f.txt"] then 0 else 1,
    statOk := true }

/-! ## Claim theorems, executor side -/

/-- C1 (code bug): the dry-run mutation operations leave the session state
untouched (so a dry run always ends with an empty in-memory ledger), yet the
guard of `save_rollback_data` still persists the ledger file in that
situation, while the spec's condition ("persist iff it has entries or the run
is not dry-run") would skip it: the code writes `duplicate_rollback.json` on
every dry run, clobbering any previous ledger, contrary to dry-run purity. -/
theorem dry_run_persists_empty_ledger :
    execute_soft_link stDry ["s"] ["t"] "i" "h" true true = (true, stDry)
    ∧ execute_hard_link stDry ["s"] ["t"] "i" "h" true true = (true, stDry)
    ∧ execute_delete stDry ["t"] "i" "h" true true = (true, stDry)
    ∧ stDry.rollback_entries = []
    ∧ saveRollbackPersists stDry.rollback_entries stDry.dry_run = true
    ∧ saveRollbackPersists_spec stDry.rollback_entries stDry.dry_run = false :=
  ⟨rfl, rfl, rfl, rfl, rfl, rfl⟩

/-- C3 counterexample: in a non-dry-run session, deleting an already-absent
path reports success yet appends no ledger entry, refuting the claimed
"entry appended iff mutation succeeded" biconditional. -/
theorem noop_delete_no_entry_cex :
    (execute_delete
        { dry_run := false, fs := [], backups := [], rollback_entries := [], stats := {} }
        ["a", "b.txt"] "i" "120000" true true).1 = true
    ∧ (execute_delete
        { dry_run := false, fs := [], backups := [], rollback_entries := [], stats := {} }
        ["a", "b.txt"] "i" "120000" true true).2.rollback_entries = [] :=
  ⟨rfl, rfl⟩

/-- C3 amended: in a non-dry-run session, a mutation appends a ledger entry
iff it succeeded and, in the delete case, the target actually existed; in
particular a mutation that fails at the backup step or at the primitive
action never adds an entry, and a delete of an absent path succeeds with no
entry. -/
theorem ledger_entry_iff_mutation (st : ExecState) (src tgt p : Pathv) (iso hms : String)
    (c l d : Bool) (hdr : st.dry_run = false) :
    ((execute_soft_link st src tgt iso hms c l).2.rollback_entries.length
      = st.rollback_entries.length
        + (if (execute_soft_link st src tgt iso hms c l).1 = true then 1 else 0))
    ∧ ((execute_hard_link st src tgt iso hms c l).2.rollback_entries.length
      = st.rollback_entries.length
        + (if (execute_hard_link st src tgt iso hms c l).1 = true then 1 else 0))
    ∧ ((execute_delete st p iso hms c d).2.rollback_entries.length
      = st.rollback_entries.length
        + (if (execute_delete st p iso hms c d).1 = true ∧ (fsGet st.fs p).isSome = true
           then 1 else 0)) := by
  refine ⟨?_, ?_, ?_⟩
  · rcases hfs : fsGet st.fs tgt with _ | node
    · cases l <;>
        simp [execute_soft_link, create_backup, hdr, hfs, restoreFromBackup_entries]
    · cases c <;> cases l <;>
        simp [execute_soft_link, create_backup, hdr, hfs, restoreFromBackup_entries]
  · rcases hfs : fsGet st.fs tgt with _ | node
    · cases l <;>
        simp [execute_hard_link, create_backup, hdr, hfs, restoreFromBackup_entries]
    · cases c <;> cases l <;>
        simp [execute_hard_link, create_backup, hdr, hfs, restoreFromBackup_entries]
  · rcases hfs : fsGet st.fs p with _ | node
    · simp [execute_delete, hdr, hfs]
    · cases c <;> cases d <;>
        simp [execute_delete, create_backup, hdr, hfs]

theorem ledger_entry_iff_mutation_inst :
    (execute_soft_link stTwo ["o", "f.txt"] ["d", "f.txt"] "i" "120000" true true
      ).2.rollback_entries.length
    = stTwo.rollback_entries.length
      + (if (execute_soft_link stTwo ["o", "f.txt"] ["d", "f.txt"] "i" "120000" true true
            ).1 = true then 1 else 0) :=
  (ledger_entry_iff_mutation stTwo ["o", "f.txt"] ["d", "f.txt"] ["d", "f.txt"]
      "i" "120000" true true true rfl).1

/-- C5 counterexample: two distinct files with equal base names backed up
under the same label within the same second receive identical backup copy
names, so the later copy overwrites the earlier one. -/
theorem backup_name_collision_cex :
    (["a", "x.txt"] : Pathv) ≠ ["b", "x.txt"]
    ∧ backupName "deleted" (pathName ["a", "x.txt"]) "120000"
        = backupName "deleted" (pathName ["b", "x.txt"]) "120000" :=
  ⟨by decide, rfl⟩

/-- C5 amended: within one operation label, backup copy names are distinct
exactly when the base names or the second-granularity `HHMMSS` timestamps
differ (timestamps being equal-length strings); two distinct files sharing
base name and timestamp collide. -/
theorem backup_name_distinct_iff (label b1 b2 t1 t2 : String)
    (hlen : t1.length = t2.length) :
    backupName label b1 t1 = backupName label b2 t2 ↔ b1 = b2 ∧ t1 = t2 := by
  constructor
  · intro h
    have hlen1 : t1.data.length = t2.data.length := hlen
    have hdata : label.data ++ ('_' :: (b1.data ++ '_' :: t1.data))
        = label.data ++ ('_' :: (b2.data ++ '_' :: t2.data)) := by
      have h2 := congrArg String.data h
      simpa [backupName, String.data_append, List.append_assoc,
        show ("_" : String).data = ['_'] from rfl] using h2
    have h3 := List.append_cancel_left hdata
    injection h3 with _ h4
    have hlen2 : ('_' :: t1.data).length = ('_' :: t2.data).length := by
      rw [List.length_cons, List.length_cons, hlen1]
    have h5 := List.append_inj' h4 hlen2
    injection h5.2 with _ ht2
    exact ⟨String.ext h5.1, String.ext ht2⟩
  · rintro ⟨rfl, rfl⟩
    rfl

theorem backup_name_distinct_iff_inst :
    ("130000" : String).length = "120000".length
    ∧ (backupName "deleted" "x.txt" "130000" = backupName "deleted" "y.txt" "120000"
        ↔ ("x.txt" : String) = "y.txt" ∧ ("130000" : String) = "120000") :=
  ⟨rfl, backup_name_distinct_iff "deleted" "x.txt" "y.txt" "130000" "120000" rfl⟩

/-- C2 counterexample: for `DELETE_BOTH`, a partial success (original deleted,
duplicate deletion failed) yields exactly the same reported outcome `false` as
a run in which both deletions failed; the two runs differ only in the ledger,
so partial success is collapsed into the single boolean, not surfaced in the
request's reported outcome. -/
theorem delete_both_partial_collapsed_cex :
    (process_action envAll stTwo ["o", "f.txt"] ["d", "f.txt"] .DELETE_BOTH
        "i1" "h1" "i2" "h2" ⟨true, true, true, false⟩).1
      = (process_action envAll stTwo ["o", "f.txt"] ["d", "f.txt"] .DELETE_BOTH
        "i1" "h1" "i2" "h2" ⟨true, false, true, false⟩).1
    ∧ (process_action envAll stTwo ["o", "f.txt"] ["d", "f.txt"] .DELETE_BOTH
        "i1" "h1" "i2" "h2" ⟨true, true, true, false⟩).2.rollback_entries.length = 1
    ∧ (process_action envAll stTwo ["o", "f.txt"] ["d", "f.txt"] .DELETE_BOTH
        "i1" "h1" "i2" "h2" ⟨true, false, true, false⟩).2.rollback_entries.length = 0 := by
  refine ⟨?_, ?_, ?_⟩ <;> decide

/-- C2 amended: a validated `DELETE_BOTH` request executes the two deletions
sequentially and tracks them independently (the final ledger is exactly that
of the two chained sub-deletions, each of which appends its own entry on
success), but the request's reported outcome is the single boolean conjunction
of the two sub-results. -/
theorem delete_both_conjunction (env : FsEnv) (st : ExecState) (orig dup : Pathv)
    (iso1 hms1 iso2 hms2 : String) (f : Faults)
    (hv : validate_file_paths env st.fs orig dup .DELETE_BOTH = .SUCCESS) :
    (process_action env st orig dup .DELETE_BOTH iso1 hms1 iso2 hms2 f).1
      = ((execute_delete st orig iso1 hms1 f.copy1 f.prim1).1
         && (execute_delete (execute_delete st orig iso1 hms1 f.copy1 f.prim1).2
              dup iso2 hms2 f.copy2 f.prim2).1)
    ∧ (process_action env st orig dup .DELETE_BOTH iso1 hms1 iso2 hms2 f).2.rollback_entries
      = (execute_delete (execute_delete st orig iso1 hms1 f.copy1 f.prim1).2
          dup iso2 hms2 f.copy2 f.prim2).2.rollback_entries := by
  rw [process_action, hv]
  dsimp only
  constructor
  · split
    · next hc => exact hc.symm
    · next hc =>
      simp only [Bool.not_eq_true] at hc
      exact hc.symm
  · split
    · rfl
    · rfl

theorem delete_both_conjunction_inst :
    (process_action envAll stTwo ["o", "f.txt"] ["d", "f.txt"] .DELETE_BOTH
        "i1" "h1" "i2" "h2" ⟨true, true, true, true⟩).1
      = ((execute_delete stTwo ["o", "f.txt"] "i1" "h1" true true).1
         && (execute_delete (execute_delete stTwo ["o", "f.txt"] "i1" "h1" true true).2
              ["d", "f.txt"] "i2" "h2" true true).1) :=
  (delete_both_conjunction envAll stTwo ["o", "f.txt"] ["d", "f.txt"]
      "i1" "h1" "i2" "h2" ⟨true, true, true, true⟩ (by decide)).1

/-- C6 (confirmed): absent permission problems (both parents writable), a
`DELETE_BOTH` request is rejected by validation iff neither path exists; and
when the original is missing and the duplicate exists, executing the request
(without I/O faults, non-dry-run) succeeds, deletes the duplicate, treats the
original as a no-op, and appends exactly one ledger entry. -/
theorem delete_both_validation_onesided (env : FsEnv) (st : ExecState) (orig dup : Pathv)
    (iso1 hms1 iso2 hms2 : String)
    (hpo : env.writeOk (parent orig) = true) (hpd : env.writeOk (parent dup) = true) :
    (validate_file_paths env st.fs orig dup .DELETE_BOTH = .ERROR
      ↔ fsGet st.fs orig = none ∧ fsGet st.fs dup = none)
    ∧ (st.dry_run = false → fsGet st.fs orig = none →
        ∀ node : FsNode, fsGet st.fs dup = some node →
        (process_action env st orig dup .DELETE_BOTH iso1 hms1 iso2 hms2
            ⟨true, true, true, true⟩).1 = true
        ∧ (process_action env st orig dup .DELETE_BOTH iso1 hms1 iso2 hms2
            ⟨true, true, true, true⟩).2.rollback_entries.length
          = st.rollback_entries.length + 1
        ∧ fsGet (process_action env st orig dup .DELETE_BOTH iso1 hms1 iso2 hms2
            ⟨true, true, true, true⟩).2.fs dup = none
        ∧ fsGet (process_action env st orig dup .DELETE_BOTH iso1 hms1 iso2 hms2
            ⟨true, true, true, true⟩).2.fs orig = none) := by
  constructor
  · rcases ho : fsGet st.fs orig with _ | n1 <;> rcases hd2 : fsGet st.fs dup with _ | n2 <;>
      simp [validate_file_paths, ho, hd2, hpo, hpd, isHard]
  · intro hdr ho node hd2
    have hv : validate_file_paths env st.fs orig dup .DELETE_BOTH = .SUCCESS := by
      simp [validate_file_paths, ho, hd2, hpd, isHard]
    have hd1 : execute_delete st orig iso1 hms1 true true = (true, st) := by
      simp [execute_delete, hdr, ho]
    rw [process_action, hv]
    dsimp only
    rw [hd1]
    dsimp only
    refine ⟨?_, ?_, ?_, ?_⟩ <;>
      simp [execute_delete, create_backup, hdr, hd2, fsGet_fsRemove_self,
        fsGet_fsRemove_of_none, ho]

theorem delete_both_validation_onesided_inst :
    (process_action envAll
        { dry_run := false, fs := [(["d", "f.txt"], .file "x")], backups := [],
          rollback_entries := [], stats := {} }
        ["o", "f.txt"] ["d", "f.txt"] .DELETE_BOTH "i1" "h1" "i2" "h2"
        ⟨true, true, true, true⟩).1 = true :=
  ((delete_both_validation_onesided envAll
      { dry_run := false, fs := [(["d", "f.txt"], .file "x")], backups := [],
        rollback_entries := [], stats := {} }
      ["o", "f.txt"] ["d", "f.txt"] "i1" "h1" "i2" "h2" rfl rfl).2
    rfl rfl (.file "x") (by decide)).1

/-- C7 counterexample: a hardlink request whose two sides report different
device identifiers, but whose duplicate's parent directory is not writable, is
rejected with plain `ERROR` (and counted as an error), not with
`CROSS_DEVICE`/skip: the permission check precedes the device check. -/
theorem cross_device_masked_by_permission_cex :
    envNoPerm.dev ["o", "f.txt"] ≠ envNoPerm.dev (parent ["d", "f.txt"])
    ∧ validate_file_paths envNoPerm stTwo.fs ["o", "f.txt"] ["d", "f.txt"]
        .HARDLINK_DUPLICATE = .ERROR
    ∧ (process_action envNoPerm stTwo ["o", "f.txt"] ["d", "f.txt"] .HARDLINK_DUPLICATE
        "i1" "h1" "i2" "h2" ⟨true, true, true, true⟩).2.stats.errors
      = stTwo.stats.errors + 1
    ∧ (process_action envNoPerm stTwo ["o", "f.txt"] ["d", "f.txt"] .HARDLINK_DUPLICATE
        "i1" "h1" "i2" "h2" ⟨true, true, true, true⟩).2.stats.skipped
      = stTwo.stats.skipped := by
  refine ⟨?_, ?_, ?_, ?_⟩ <;> decide

/-- C7 amended: for every hardlink request that passes the existence and
write-permission checks (both files present, both parents writable, stat
succeeding) and whose sides report different device identifiers, validation
returns `CROSS_DEVICE` (distinct from `ERROR`), the request is counted as
skipped rather than as an error, and it produces zero filesystem changes and
zero ledger entries (the returned state differs from the input state only in
the skipped counter). -/
theorem cross_device_skip (env : FsEnv) (st : ExecState) (orig dup : Pathv)
    (action : ActionType) (iso1 hms1 iso2 hms2 : String) (f : Faults)
    (ha : action = .HARDLINK_ORIGINAL ∨ action = .HARDLINK_DUPLICATE)
    (n1 n2 : FsNode) (ho : fsGet st.fs orig = some n1) (hd2 : fsGet st.fs dup = some n2)
    (hpo : env.writeOk (parent orig) = true) (hpd : env.writeOk (parent dup) = true)
    (hstat : env.statOk = true) (hdev : env.dev orig ≠ env.dev (parent dup)) :
    validate_file_paths env st.fs orig dup action = .CROSS_DEVICE
    ∧ process_action env st orig dup action iso1 hms1 iso2 hms2 f
      = (false, { st with stats := { st.stats with skipped := st.stats.skipped + 1 } }) := by
  have hv : validate_file_paths env st.fs orig dup action = .CROSS_DEVICE := by
    rcases ha with h | h <;> subst h <;>
      simp [validate_file_paths, ho, hd2, hpo, hpd, hstat, hdev, isHard]
  refine ⟨hv, ?_⟩
  rw [process_action.eq_def, hv]

theorem cross_device_skip_inst :
    validate_file_paths envDev stTwo.fs ["o", "f.txt"] ["d", "f.txt"] .HARDLINK_DUPLICATE
      = .CROSS_DEVICE :=
  (cross_device_skip envDev stTwo ["o", "f.txt"] ["d", "f.txt"] .HARDLINK_DUPLICATE
      "i1" "h1" "i2" "h2" ⟨true, true, true, true⟩ (Or.inr rfl)
      (.file "x") (.file "x") (by decide) (by decide) rfl rfl rfl (by decide)).1

end DupTools
